import Mathlib

/-!
Shallow embedding of the Recommendation service (`service/models.py` and
`service/routes.py`): a flat record store over a list, the model-layer
create/update/delete/find operations with their rollback-on-failure
behaviour, and the Flask route handlers as pure functions from the store
and the parsed request to an HTTP status, body and updated store.
-/

/-- A single quote character, used when rendering Python repr-style messages. -/
def pyQuote : String := String.singleton (Char.ofNat 39)

/-- The one entity of the service (`models.py`, class `Recommendation`):
`id` is the integer primary key, the remaining seven fields are the
payload columns. -/
structure Recommendation where
  id : Nat
  customer_id : Int
  product_id : Int
  product_name : String
  recommend_product_id : Int
  recommendation_name : String
  recommend_type : String
  rec_success : Int
deriving DecidableEq, Repr

/-- The persisted table: a list of rows. `id` is the primary key, so a
well-formed store has at most one row per id (ids are generated by
`nextId`, which always exceeds every existing id). -/
abbrev Store := List Recommendation

/-- The only exception class the model layer defines
(`models.py`, `DataValidationError`); it wraps the original cause. -/
inductive ModelError where
  | dataValidationError (cause : String)
deriving DecidableEq, Repr

/-- Source `Recommendation.find` (`models.py`): primary-key lookup, `none`
when absent. -/
def Recommendation.find (s : Store) (by_id : Nat) : Option Recommendation :=
  List.find? (fun r => r.id == by_id) s

/-- The autoincrement primary-key generator of the database: one more
than the largest id in the store. -/
def nextId (s : Store) : Nat :=
  List.foldr (fun r m => max r.id m) 0 s + 1

/-- Source `Recommendation.create` (`models.py`): resets `id`, lets the database
assign a fresh one, `db.session.add` + `commit`; on commit failure the
session is rolled back (the store is returned unchanged) and a
`DataValidationError` wrapping the cause is raised. `fail` injects the
commit failure (`none` = commit succeeds, `some cause` = the exception
the database raised). -/
def Recommendation.create (fail : Option String) (s : Store)
    (r : Recommendation) : Store × Except ModelError Recommendation :=
  let fresh : Recommendation := { r with id := nextId s }
  match fail with
  | none => (s ++ [fresh], Except.ok fresh)
  | some cause => (s, Except.error (ModelError.dataValidationError cause))

/-- Committing a mutated row: every row with the record's primary key
(at most one in a well-formed store) takes the new field values. -/
def storeUpdate (s : Store) (r : Recommendation) : Store :=
  List.map (fun x => if x.id == r.id then r else x) s

/-- Deleting a row by primary key. -/
def storeErase (s : Store) (i : Nat) : Store :=
  List.filter (fun x => !(x.id == i)) s

/-- Source `Recommendation.update` (`models.py`): commits the record's current
in-memory field values over the row with its primary key; on commit
failure rolls back (store unchanged) and raises `DataValidationError`
wrapping the cause. -/
def Recommendation.update (fail : Option String) (s : Store)
    (r : Recommendation) : Store × Except ModelError Recommendation :=
  match fail with
  | none => (storeUpdate s r, Except.ok r)
  | some cause => (s, Except.error (ModelError.dataValidationError cause))

/-- Source `Recommendation.delete` (`models.py`): removes the row with the
record's primary key (at most one row matches, `id` being the key); on
commit failure rolls back (store unchanged) and raises
`DataValidationError` wrapping the cause. -/
def Recommendation.delete (fail : Option String) (s : Store)
    (r : Recommendation) : Store × Except ModelError Unit :=
  match fail with
  | none => (storeErase s r.id, Except.ok ())
  | some cause => (s, Except.error (ModelError.dataValidationError cause))

/-- A parsed JSON request body: each of the seven payload keys is either
present with a value or absent. -/
structure Body where
  customer_id : Option Int
  product_id : Option Int
  product_name : Option String
  recommend_product_id : Option Int
  recommendation_name : Option String
  recommend_type : Option String
  rec_success : Option Int
deriving DecidableEq, Repr

/-- Python dict truthiness for a body: `not data` is true exactly when
the dict is empty. -/
def Body.isEmptyDict (b : Body) : Bool :=
  b.customer_id == none && b.product_id == none && b.product_name == none
    && b.recommend_product_id == none && b.recommendation_name == none
    && b.recommend_type == none && b.rec_success == none

/-- Source `Recommendation.deserialize` (`models.py`): reads the seven required
keys in source order; a missing key raises `DataValidationError`
naming it. The fresh object's id is a placeholder (`create` overwrites
it). -/
def Recommendation.deserialize (data : Body) : Except ModelError Recommendation :=
  match data.customer_id with
  | none => Except.error (ModelError.dataValidationError
      "Invalid Recommendation: missing customer_id")
  | some cid =>
  match data.product_id with
  | none => Except.error (ModelError.dataValidationError
      "Invalid Recommendation: missing product_id")
  | some pid =>
  match data.product_name with
  | none => Except.error (ModelError.dataValidationError
      "Invalid Recommendation: missing product_name")
  | some pname =>
  match data.recommend_product_id with
  | none => Except.error (ModelError.dataValidationError
      "Invalid Recommendation: missing recommend_product_id")
  | some rpid =>
  match data.recommendation_name with
  | none => Except.error (ModelError.dataValidationError
      "Invalid Recommendation: missing recommendation_name")
  | some rname =>
  match data.recommend_type with
  | none => Except.error (ModelError.dataValidationError
      "Invalid Recommendation: missing recommend_type")
  | some rtype =>
  match data.rec_success with
  | none => Except.error (ModelError.dataValidationError
      "Invalid Recommendation: missing rec_success")
  | some rsucc =>
    Except.ok
      { id := 0, customer_id := cid, product_id := pid, product_name := pname,
        recommend_product_id := rpid, recommendation_name := rname,
        recommend_type := rtype, rec_success := rsucc }

/-- Modelled from the spec: the HTTP error handlers live in
`service/common/error_handlers.py`, which is not under `src/`; per §7 a
ValidationError is surfaced as HTTP 400, and `DataValidationError` is the
code's validation error class (§4.2: POST fails with 400 when required
fields are missing, which is exactly a `DataValidationError` escaping the
route), so the handler maps it to 400. -/
def errorHandlerStatus : ModelError → Nat
  | ModelError.dataValidationError _ => 400

/-- A JSON scalar as produced by `serialize`. -/
inductive JVal where
  | jint (i : Int)
  | jstr (s : String)
deriving DecidableEq, Repr

/-- Source `Recommendation.serialize` (`models.py`): the dictionary sent back to
the client, keys in source order. -/
def Recommendation.serialize (r : Recommendation) : List (String × JVal) :=
  [("id", JVal.jint (Int.ofNat r.id)),
   ("customer_id", JVal.jint r.customer_id),
   ("product_id", JVal.jint r.product_id),
   ("product_name", JVal.jstr r.product_name),
   ("recommendation_name", JVal.jstr r.recommendation_name),
   ("recommend_product_id", JVal.jint r.recommend_product_id),
   ("recommend_type", JVal.jstr r.recommend_type),
   ("rec_success", JVal.jint r.rec_success)]

/-- The JSON body of a route response. -/
inductive RespBody where
  | record (fields : List (String × JVal))
  | records (items : List (List (String × JVal)))
  | err (msg : String)
  | message (msg : String)
deriving DecidableEq, Repr

/-- What a route handler produces: the store after the request, the HTTP
status, the body, and the `Location` header when one is set. -/
structure RouteResult where
  store : Store
  status : Nat
  body : RespBody
  location : Option String
deriving DecidableEq, Repr

/-- Source `check_content_type` (`routes.py`): `some (415, msg)` when the
handler aborts (header missing, or not exactly equal to the expected
string), `none` when the request passes. -/
def check_content_type (header : Option String) (content_type : String) :
    Option (Nat × String) :=
  match header with
  | none => some (415, "Content-Type must be " ++ content_type)
  | some h =>
    if h == content_type then none
    else some (415, "Content-Type must be " ++ content_type)

/-- Python truthiness of `request.args.get(...)`: `None` and the empty
string are falsy. -/
def truthy : Option String → Bool
  | none => false
  | some v => !(v == "")

/-- Python `str.isdigit` restricted to ASCII: non-empty and all digits.
Stated over the character list of the string. -/
def pyIsDigit (v : String) : Bool :=
  !(v == "") && List.all v.data Char.isDigit

/-- Python `int(...)` on a digit string, over the character list. -/
def pyInt (v : String) : Nat :=
  List.foldl (fun n c => n * 10 + (c.toNat - 48)) 0 v.data

/-- Source `valid_recommend_types` (`routes.py`), in declared order. -/
def valid_recommend_types : List String := ["Up-Sell", "Down-Sell", "Cross-Sell"]

/-- Python `repr` of a list of strings, as an f-string renders it. -/
def pyListRepr (xs : List String) : String :=
  "[" ++ String.intercalate ", " (List.map (fun x => pyQuote ++ x ++ pyQuote) xs)
    ++ "]"

/-- One integer-valued query filter of `list_recommendations`
(`routes.py`): skipped when absent or empty, 400 when not a digit
string, otherwise conjoined onto the accumulated query predicate. -/
def addIntFilter (param : Option String) (errMsg : String)
    (field : Recommendation → Int) (q : Recommendation → Bool) :
    Except (Nat × RespBody) (Recommendation → Bool) :=
  match param with
  | none => Except.ok q
  | some v =>
    if v == "" then Except.ok q
    else if pyIsDigit v then
      Except.ok (fun r => q r && field r == Int.ofNat (pyInt v))
    else Except.error (400, RespBody.err errMsg)

/-- One string-valued query filter of `list_recommendations`
(`routes.py`): skipped when absent or empty, no validation. -/
def addStrFilter (param : Option String) (field : Recommendation → String)
    (q : Recommendation → Bool) : Recommendation → Bool :=
  match param with
  | none => q
  | some v => if v == "" then q else fun r => q r && field r == v

/-- The `recommend_type` filter of `list_recommendations` (`routes.py`):
skipped when absent or empty, 400 when not one of the three valid
values, otherwise conjoined onto the query predicate. -/
def addTypeFilter (param : Option String) (q : Recommendation → Bool) :
    Except (Nat × RespBody) (Recommendation → Bool) :=
  match param with
  | none => Except.ok q
  | some v =>
    if v == "" then Except.ok q
    else if List.contains valid_recommend_types v then
      Except.ok (fun r => q r && r.recommend_type == v)
    else Except.error (400, RespBody.err
      ("Invalid recommend_type. Must be one of "
        ++ pyListRepr valid_recommend_types))

/-- The success-range filter of `list_recommendations` (`routes.py`):
applied only when both bounds are supplied and truthy; 400 when either
is not a digit string or when min exceeds max; otherwise keeps the
records with `rec_success` between the bounds inclusive. -/
def addRangeFilter (rec_success_min rec_success_max : Option String)
    (q : Recommendation → Bool) :
    Except (Nat × RespBody) (Recommendation → Bool) :=
  match rec_success_min, rec_success_max with
  | some mn, some mx =>
    if mn == "" || mx == "" then Except.ok q
    else if !(pyIsDigit mn) || !(pyIsDigit mx) then
      Except.error (400, RespBody.err "Invalid range :()")
    else if pyInt mn > pyInt mx then
      Except.error (400, RespBody.err
        "rec_success_min cannot be greater than rec_success_max")
    else
      Except.ok (fun r => q r
        && Int.ofNat (pyInt mn) ≤ r.rec_success
        && r.rec_success ≤ Int.ofNat (pyInt mx))
  | _, _ => Except.ok q

/-- The query assembly of `list_recommendations` (`routes.py`): chains
the filters onto `Recommendation.query` in source order, aborting with
400 on the first invalid parameter. -/
def buildQuery
    (product_id customer_id recommend_type recommend_product_id
     product_name recommendation_name rec_success_min rec_success_max :
       Option String) : Except (Nat × RespBody) (Recommendation → Bool) :=
  match addIntFilter product_id "Invalid product_id"
      (fun r => r.product_id) (fun _ => true) with
  | Except.error resp => Except.error resp
  | Except.ok q =>
  match addIntFilter customer_id "Invalid customer_id"
      (fun r => r.customer_id) q with
  | Except.error resp => Except.error resp
  | Except.ok q =>
  match addTypeFilter recommend_type q with
  | Except.error resp => Except.error resp
  | Except.ok q =>
  match addIntFilter recommend_product_id "Invalid recommend_product_id"
      (fun r => r.recommend_product_id) q with
  | Except.error resp => Except.error resp
  | Except.ok q =>
  let q := addStrFilter product_name (fun r => r.product_name) q
  let q := addStrFilter recommendation_name (fun r => r.recommendation_name) q
  addRangeFilter rec_success_min rec_success_max q

/-- Source `list_recommendations` (`routes.py`): builds the query, then returns
200 with the serialized matches (`query.all()` + list comprehension), or
the 400 the assembly aborted with. -/
def list_recommendations (s : Store)
    (product_id customer_id recommend_type recommend_product_id
     product_name recommendation_name rec_success_min rec_success_max :
       Option String) : Nat × RespBody :=
  match buildQuery product_id customer_id recommend_type recommend_product_id
      product_name recommendation_name rec_success_min rec_success_max with
  | Except.error resp => resp
  | Except.ok q =>
    (200, RespBody.records (List.map Recommendation.serialize (List.filter q s)))

/-- The 404 message used by the delete/like/dislike routes. -/
def notFoundMsg (i : Nat) : String :=
  "Recommendation with id " ++ pyQuote ++ toString i ++ pyQuote
    ++ " was not found."

/-- The 404 message used by the update route (it has an extra colon). -/
def notFoundMsgUpdate (i : Nat) : String :=
  "Recommendation with id: " ++ pyQuote ++ toString i ++ pyQuote
    ++ " was not found."

/-- Source `create_recommendations` (`routes.py`): content-type check, then
deserialize (a `DataValidationError` escapes to the app error handler),
then `create`; 201 with the serialized record and a Location header
pointing at the read endpoint. -/
def create_recommendations (fail : Option String) (header : Option String)
    (s : Store) (data : Body) : Except ModelError RouteResult :=
  match check_content_type header "application/json" with
  | some (st, msg) =>
    Except.ok { store := s, status := st, body := RespBody.err msg,
                location := none }
  | none =>
    match Recommendation.deserialize data with
    | Except.error e => Except.error e
    | Except.ok rec0 =>
      match Recommendation.create fail s rec0 with
      | (_, Except.error e) => Except.error e
      | (s1, Except.ok saved) =>
        Except.ok { store := s1, status := 201,
                    body := RespBody.record saved.serialize,
                    location := some ("/recommendations/" ++ toString saved.id) }

/-- The field-merge of `update_recommendations` (`routes.py`): each of
the seven payload fields is overwritten exactly when its key is present
in the body; `id` is never touched. Assignments in source order. -/
def applyBody (r : Recommendation) (data : Body) : Recommendation :=
  let r := match data.customer_id with
    | some v => { r with customer_id := v } | none => r
  let r := match data.product_id with
    | some v => { r with product_id := v } | none => r
  let r := match data.product_name with
    | some v => { r with product_name := v } | none => r
  let r := match data.recommendation_name with
    | some v => { r with recommendation_name := v } | none => r
  let r := match data.recommend_product_id with
    | some v => { r with recommend_product_id := v } | none => r
  let r := match data.recommend_type with
    | some v => { r with recommend_type := v } | none => r
  let r := match data.rec_success with
    | some v => { r with rec_success := v } | none => r
  r

/-- Source `update_recommendations` (`routes.py`): content-type check, 404 when
the id is absent, 400 when the body is absent or the empty dict,
otherwise merges the present fields, persists, and returns 200 with the
serialized record. -/
def update_recommendations (fail : Option String) (header : Option String)
    (s : Store) (recommendation_id : Nat) (data : Option Body) :
    Except ModelError RouteResult :=
  match check_content_type header "application/json" with
  | some (st, msg) =>
    Except.ok { store := s, status := st, body := RespBody.err msg,
                location := none }
  | none =>
    match Recommendation.find s recommendation_id with
    | none =>
      Except.ok { store := s, status := 404,
                  body := RespBody.err (notFoundMsgUpdate recommendation_id),
                  location := none }
    | some rec0 =>
      match data with
      | none =>
        Except.ok { store := s, status := 400,
                    body := RespBody.err "No data provided for update.",
                    location := none }
      | some b =>
        if b.isEmptyDict then
          Except.ok { store := s, status := 400,
                      body := RespBody.err "No data provided for update.",
                      location := none }
        else
          let updated := applyBody rec0 b
          match Recommendation.update fail s updated with
          | (_, Except.error e) => Except.error e
          | (s1, Except.ok _) =>
            Except.ok { store := s1, status := 200,
                        body := RespBody.record updated.serialize,
                        location := none }

/-- Source `like_recommendation` (`routes.py`): 404 when absent; increments
`rec_success` and persists only when the current value is below 100;
200 with the serialized record either way. -/
def like_recommendation (fail : Option String) (s : Store)
    (recommendation_id : Nat) : Except ModelError RouteResult :=
  match Recommendation.find s recommendation_id with
  | none =>
    Except.ok { store := s, status := 404,
                body := RespBody.err (notFoundMsg recommendation_id),
                location := none }
  | some rec0 =>
    if rec0.rec_success < 100 then
      let bumped := { rec0 with rec_success := rec0.rec_success + 1 }
      match Recommendation.update fail s bumped with
      | (_, Except.error e) => Except.error e
      | (s1, Except.ok _) =>
        Except.ok { store := s1, status := 200,
                    body := RespBody.record bumped.serialize, location := none }
    else
      Except.ok { store := s, status := 200,
                  body := RespBody.record rec0.serialize, location := none }

/-- Source `dislike_recommendation` (`routes.py`): 404 when absent; decrements
`rec_success` and persists only when the current value is above 0; 200
with the serialized record either way. -/
def dislike_recommendation (fail : Option String) (s : Store)
    (recommendation_id : Nat) : Except ModelError RouteResult :=
  match Recommendation.find s recommendation_id with
  | none =>
    Except.ok { store := s, status := 404,
                body := RespBody.err (notFoundMsg recommendation_id),
                location := none }
  | some rec0 =>
    if rec0.rec_success > 0 then
      let dropped := { rec0 with rec_success := rec0.rec_success - 1 }
      match Recommendation.update fail s dropped with
      | (_, Except.error e) => Except.error e
      | (s1, Except.ok _) =>
        Except.ok { store := s1, status := 200,
                    body := RespBody.record dropped.serialize, location := none }
    else
      Except.ok { store := s, status := 200,
                  body := RespBody.record rec0.serialize, location := none }

/-- Source `delete_recommendations` (`routes.py`, the delete-by-id route):
404 when the id is absent, otherwise deletes and returns 204 with a
confirmation message body. -/
def delete_recommendations (fail : Option String) (s : Store)
    (recommendation_id : Nat) : Except ModelError RouteResult :=
  match Recommendation.find s recommendation_id with
  | none =>
    Except.ok { store := s, status := 404,
                body := RespBody.err (notFoundMsg recommendation_id),
                location := none }
  | some rec0 =>
    match Recommendation.delete fail s rec0 with
    | (_, Except.error e) => Except.error e
    | (s1, Except.ok _) =>
      Except.ok { store := s1, status := 204,
                  body := RespBody.message "Recommendation deleted successfully.",
                  location := none }

/-- Concrete record used to evaluate the theorems on a small store. -/
def sampleRec : Recommendation :=
  { id := 1, customer_id := 1, product_id := 101, product_name := "laptop",
    recommend_product_id := 301, recommendation_name := "mouse",
    recommend_type := "Down-Sell", rec_success := 75 }

/-- A record sitting at the lower `rec_success` boundary. -/
def sampleRecLow : Recommendation := { sampleRec with id := 2, rec_success := 0 }

/-- A record sitting at the upper `rec_success` boundary. -/
def sampleRecHigh : Recommendation := { sampleRec with id := 3, rec_success := 100 }

/-- A body with no keys (the empty JSON object). -/
def emptyBody : Body := ⟨none, none, none, none, none, none, none⟩

/-- A body carrying all seven required keys of `sampleRec`. -/
def fullBody : Body :=
  ⟨some 1, some 101, some "laptop", some 301, some "mouse",
   some "Down-Sell", some 75⟩

/-- The record `create_recommendations` persists for a full payload: the
seven sent values under the database-generated id. -/
def createdRec (s : Store) (cid pid rpid rsucc : Int) (pn rn rt : String) :
    Recommendation :=
  { id := nextId s, customer_id := cid, product_id := pid, product_name := pn,
    recommend_product_id := rpid, recommendation_name := rn,
    recommend_type := rt, rec_success := rsucc }

/-- A three-row store exercising both `rec_success` boundaries. -/
def trioStore : Store := [sampleRec, sampleRecLow, sampleRecHigh]

/-- A body carrying only two of the seven keys (a partial update). -/
def partialBody : Body := ⟨some 9, none, none, none, none, none, some 42⟩

theorem find_id_of_some (s : Store) (i : Nat) (r : Recommendation)
    (h : Recommendation.find s i = some r) : r.id = i := by
  have := List.find?_some h
  simpa using this

theorem find_storeUpdate (s : Store) (i : Nat) (r' : Recommendation)
    (hid : r'.id = i) (h : (Recommendation.find s i).isSome = true) :
    Recommendation.find (storeUpdate s r') i = some r' := by
  induction s with
  | nil => simp [Recommendation.find] at h
  | cons a t ih =>
    by_cases ha : a.id = i
    · simp [Recommendation.find, storeUpdate, ha, hid]
    · have ha' : (a.id == i) = false := by simp [ha]
      have ha'' : (a.id == r'.id) = false := by simp [hid, ha]
      have h' : (Recommendation.find t i).isSome = true := by
        simpa [Recommendation.find, List.find?, ha'] using h
      simpa [Recommendation.find, storeUpdate, List.find?, ha', ha''] using ih h'

theorem find_storeErase (s : Store) (i : Nat) :
    Recommendation.find (storeErase s i) i = none := by
  rw [Recommendation.find, List.find?_eq_none]
  intro x hx
  simp only [storeErase, List.mem_filter] at hx
  simpa using hx.2

theorem id_le_foldr_max (s : Store) (x : Recommendation) (hx : x ∈ s) :
    x.id ≤ List.foldr (fun r m => max r.id m) 0 s := by
  induction hx with
  | head t => simp
  | tail a ht ih => exact le_trans ih (by simp)

theorem id_lt_nextId (s : Store) (x : Recommendation) (hx : x ∈ s) :
    x.id < nextId s :=
  Nat.lt_succ_of_le (id_le_foldr_max s x hx)

theorem find_append_fresh (s : Store) (r : Recommendation)
    (h : ∀ x ∈ s, (x.id == r.id) = false) :
    Recommendation.find (s ++ [r]) r.id = some r := by
  induction s with
  | nil => simp [Recommendation.find, List.find?]
  | cons a t ih =>
    have ha := h a (by simp)
    have ht : ∀ x ∈ t, (x.id == r.id) = false := fun x hx => h x (by simp [hx])
    simpa [Recommendation.find, List.find?, ha] using ih ht

theorem pyIsDigit_ne_empty (v : String) (h : pyIsDigit v = true) :
    (v == "") = false := by
  have := (Bool.and_eq_true _ _).mp h
  simpa using this.1

theorem applyBody_eq (r : Recommendation) (b : Body) :
    applyBody r b =
      { id := r.id,
        customer_id := Option.getD b.customer_id r.customer_id,
        product_id := Option.getD b.product_id r.product_id,
        product_name := Option.getD b.product_name r.product_name,
        recommend_product_id :=
          Option.getD b.recommend_product_id r.recommend_product_id,
        recommendation_name :=
          Option.getD b.recommendation_name r.recommendation_name,
        recommend_type := Option.getD b.recommend_type r.recommend_type,
        rec_success := Option.getD b.rec_success r.rec_success } := by
  rcases b with ⟨c, p, pn, rp, rn, rt, rs⟩
  cases c <;> cases p <;> cases pn <;> cases rp <;> cases rn <;> cases rt
    <;> cases rs <;> rfl

theorem exceptBind_congr {ε α β : Type} (a : Except ε α) (f g : α → Except ε β)
    (h : ∀ x, f x = g x) : a >>= f = a >>= g := by
  cases a <;> simp [Bind.bind, Except.bind, h]

/-- C2: the claim says a storage failure during create/update/delete is
rolled back and raised as a StorageError surfaced as HTTP 500; the code
has no StorageError class — `models.py` wraps the cause in
`DataValidationError`, its validation error class, which the error
handler surfaces as 400, not 500. Shown false at a concrete input. -/
theorem C2_storage_failure_counterexample :
    Recommendation.create (some "DB failure") [] sampleRec
        = ([], Except.error (ModelError.dataValidationError "DB failure"))
      ∧ errorHandlerStatus (ModelError.dataValidationError "DB failure") = 400
      ∧ ¬ errorHandlerStatus (ModelError.dataValidationError "DB failure") = 500 :=
  ⟨rfl, rfl, by decide⟩

/-- C2 (amended): for every record, if the storage layer fails during
create, update, or delete, the attempted change is discarded (the store
is returned exactly as it was) and a `DataValidationError` carrying the
original cause is raised — the code reuses its validation error class,
so the failure is surfaced as HTTP 400 rather than 500. -/
theorem C2_storage_failure_rollback (s : Store) (r : Recommendation)
    (cause : String) :
    Recommendation.create (some cause) s r
        = (s, Except.error (ModelError.dataValidationError cause))
      ∧ Recommendation.update (some cause) s r
        = (s, Except.error (ModelError.dataValidationError cause))
      ∧ Recommendation.delete (some cause) s r
        = (s, Except.error (ModelError.dataValidationError cause))
      ∧ errorHandlerStatus (ModelError.dataValidationError cause) = 400 :=
  ⟨rfl, rfl, rfl, rfl⟩

/-- C5: for every creation payload carrying all seven required fields,
POST /recommendations answers 201 with the serialized record (the seven
sent values plus the generated id) and a Location header for the read
endpoint, and a subsequent `find` on that id yields a record equal in
all fields to what was sent. -/
theorem C5_create_then_find (s : Store) (cid pid rpid rsucc : Int)
    (pn rn rt : String) :
    create_recommendations none (some "application/json") s
        ⟨some cid, some pid, some pn, some rpid, some rn, some rt, some rsucc⟩
      = Except.ok
          { store := s ++ [createdRec s cid pid rpid rsucc pn rn rt],
            status := 201,
            body := RespBody.record
              (createdRec s cid pid rpid rsucc pn rn rt).serialize,
            location := some ("/recommendations/" ++ toString (nextId s)) }
      ∧ (createdRec s cid pid rpid rsucc pn rn rt).id = nextId s
      ∧ Recommendation.find (s ++ [createdRec s cid pid rpid rsucc pn rn rt])
          (nextId s) = some (createdRec s cid pid rpid rsucc pn rn rt) := by
  refine ⟨rfl, rfl, ?_⟩
  have h : ∀ x ∈ s, (x.id == (createdRec s cid pid rpid rsucc pn rn rt).id) = false := by
    intro x hx
    have hlt := id_lt_nextId s x hx
    simpa [createdRec] using Nat.ne_of_lt hlt
  simpa [createdRec] using
    find_append_fresh s (createdRec s cid pid rpid rsucc pn rn rt) h

/-- C8 (amended): for every request to the two routes that read a JSON
body — POST /recommendations and PUT /recommendations/{id} — whose
Content-Type header is missing or differs from the exact string
"application/json", the response is 415 with the body "Content-Type
must be application/json" and the store is untouched; a header equal to
that string passes. The body-less PUT routes (like, dislike, link)
perform no content-type check. -/
theorem C8_content_type_415 (hdr fail : Option String) (s : Store)
    (data : Body) (i : Nat) (odata : Option Body)
    (hne : hdr ≠ some "application/json") :
    check_content_type hdr "application/json"
        = some (415, "Content-Type must be application/json")
      ∧ check_content_type (some "application/json") "application/json" = none
      ∧ create_recommendations fail hdr s data
        = Except.ok { store := s, status := 415,
                      body := RespBody.err "Content-Type must be application/json",
                      location := none }
      ∧ update_recommendations fail hdr s i odata
        = Except.ok { store := s, status := 415,
                      body := RespBody.err "Content-Type must be application/json",
                      location := none } := by
  have hcc : check_content_type hdr "application/json"
      = some (415, "Content-Type must be application/json") := by
    cases hdr with
    | none => rfl
    | some h =>
      have hb : (h == "application/json") = false := by
        simp only [beq_eq_false_iff_ne, ne_eq]
        intro hEq
        exact hne (by rw [hEq])
      simp [check_content_type, hb]
  refine ⟨hcc, rfl, ?_, ?_⟩
  · simp [create_recommendations, hcc]
  · simp [update_recommendations, hcc]

/-- Witness for C8 at a concrete wrong header. -/
theorem C8_content_type_415_witness :
    check_content_type (some "text/plain") "application/json"
        = some (415, "Content-Type must be application/json")
      ∧ check_content_type (some "application/json") "application/json" = none
      ∧ create_recommendations none (some "text/plain") [] emptyBody
        = Except.ok { store := [], status := 415,
                      body := RespBody.err "Content-Type must be application/json",
                      location := none }
      ∧ update_recommendations none (some "text/plain") [] 1 none
        = Except.ok { store := [], status := 415,
                      body := RespBody.err "Content-Type must be application/json",
                      location := none } :=
  C8_content_type_415 (some "text/plain") none [] emptyBody 1 none (by decide)

/-- C9: an integer filter parameter supplied as the empty string is
treated as absent — no 400 (even though the empty string is not a digit
string) and no filtering on that field. -/
theorem C9_empty_integer_param_ignored (s : Store)
    (p c t rp pn rn mn mx : Option String) :
    pyIsDigit "" = false
      ∧ list_recommendations s (some "") c t rp pn rn mn mx
        = list_recommendations s none c t rp pn rn mn mx
      ∧ list_recommendations s p (some "") t rp pn rn mn mx
        = list_recommendations s p none t rp pn rn mn mx
      ∧ list_recommendations s p c t (some "") pn rn mn mx
        = list_recommendations s p c t none pn rn mn mx :=
  ⟨rfl, rfl, rfl, rfl⟩

/-- C1: the claim says DELETE /recommendations/{id} still answers 204
when no record with that id exists; on the empty store at id 1 the code
answers 404 instead. -/
theorem C1_delete_absent_counterexample :
    delete_recommendations none [] 1
      = Except.ok { store := [], status := 404,
                    body := RespBody.err (notFoundMsg 1), location := none }
      ∧ (404 : Nat) ≠ 204 :=
  ⟨rfl, by decide⟩

/-- C1 (amended): DELETE /recommendations/{id} deletes the record and
answers 204 when one with that id is present; when the id is absent it
answers 404, so a second DELETE by the same id fails with 404 rather
than succeeding. -/
theorem C1_delete_by_id (s : Store) (i : Nat) :
    (Recommendation.find s i = none →
      delete_recommendations none s i
        = Except.ok { store := s, status := 404,
                      body := RespBody.err (notFoundMsg i), location := none })
    ∧ (∀ r, Recommendation.find s i = some r →
      delete_recommendations none s i
        = Except.ok { store := storeErase s i, status := 204,
                      body := RespBody.message
                        "Recommendation deleted successfully.",
                      location := none }
      ∧ Recommendation.find (storeErase s i) i = none
      ∧ delete_recommendations none (storeErase s i) i
        = Except.ok { store := storeErase s i, status := 404,
                      body := RespBody.err (notFoundMsg i),
                      location := none }) := by
  constructor
  · intro h
    simp [delete_recommendations, h]
  · intro r h
    have hid := find_id_of_some s i r h
    have herase := find_storeErase s i
    refine ⟨?_, herase, ?_⟩
    · simp [delete_recommendations, h, Recommendation.delete, hid]
    · simp [delete_recommendations, herase]

/-- Witness for C1 (amended): deleting the one record of a singleton
store answers 204; the second delete by the same id, and a delete on
the empty store, answer 404. -/
theorem C1_delete_by_id_witness :
    delete_recommendations none [sampleRec] 1
      = Except.ok { store := storeErase [sampleRec] 1, status := 204,
                    body := RespBody.message
                      "Recommendation deleted successfully.",
                    location := none }
    ∧ Recommendation.find (storeErase [sampleRec] 1) 1 = none
    ∧ delete_recommendations none (storeErase [sampleRec] 1) 1
      = Except.ok { store := storeErase [sampleRec] 1, status := 404,
                    body := RespBody.err (notFoundMsg 1), location := none }
    ∧ delete_recommendations none [] 5
      = Except.ok { store := [], status := 404,
                    body := RespBody.err (notFoundMsg 5), location := none } :=
  ⟨((C1_delete_by_id [sampleRec] 1).2 sampleRec rfl).1,
   ((C1_delete_by_id [sampleRec] 1).2 sampleRec rfl).2.1,
   ((C1_delete_by_id [sampleRec] 1).2 sampleRec rfl).2.2,
   (C1_delete_by_id [] 5).1 rfl⟩

/-- C3: PUT like increments `rec_success` by exactly 1 when below 100
and leaves it unchanged otherwise; PUT dislike decrements by exactly 1
when above 0 and leaves it unchanged otherwise; both answer 200 with the
serialized record, and 404 when the id is absent. -/
theorem C3_like_dislike (s : Store) (i : Nat) :
    (Recommendation.find s i = none →
      like_recommendation none s i
        = Except.ok { store := s, status := 404,
                      body := RespBody.err (notFoundMsg i), location := none }
      ∧ dislike_recommendation none s i
        = Except.ok { store := s, status := 404,
                      body := RespBody.err (notFoundMsg i), location := none })
    ∧ (∀ r, Recommendation.find s i = some r →
        (r.rec_success < 100 →
          like_recommendation none s i
            = Except.ok
                { store := storeUpdate s
                    { r with rec_success := r.rec_success + 1 },
                  status := 200,
                  body := RespBody.record
                    ({ r with rec_success := r.rec_success + 1 }).serialize,
                  location := none }
          ∧ Recommendation.find
              (storeUpdate s { r with rec_success := r.rec_success + 1 }) i
              = some { r with rec_success := r.rec_success + 1 })
        ∧ (¬ r.rec_success < 100 →
          like_recommendation none s i
            = Except.ok { store := s, status := 200,
                          body := RespBody.record r.serialize,
                          location := none })
        ∧ (r.rec_success > 0 →
          dislike_recommendation none s i
            = Except.ok
                { store := storeUpdate s
                    { r with rec_success := r.rec_success - 1 },
                  status := 200,
                  body := RespBody.record
                    ({ r with rec_success := r.rec_success - 1 }).serialize,
                  location := none }
          ∧ Recommendation.find
              (storeUpdate s { r with rec_success := r.rec_success - 1 }) i
              = some { r with rec_success := r.rec_success - 1 })
        ∧ (¬ r.rec_success > 0 →
          dislike_recommendation none s i
            = Except.ok { store := s, status := 200,
                          body := RespBody.record r.serialize,
                          location := none })) := by
  constructor
  · intro h
    exact ⟨by simp [like_recommendation, h],
           by simp [dislike_recommendation, h]⟩
  · intro r h
    have hid := find_id_of_some s i r h
    have hsome : (Recommendation.find s i).isSome = true := by simp [h]
    refine ⟨?_, ?_, ?_, ?_⟩
    · intro hlt
      exact ⟨by simp [like_recommendation, h, hlt, Recommendation.update],
             find_storeUpdate s i _ hid hsome⟩
    · intro hge
      simp [like_recommendation, h, hge]
    · intro hpos
      exact ⟨by simp [dislike_recommendation, h, hpos, Recommendation.update],
             find_storeUpdate s i _ hid hsome⟩
    · intro hle
      simp [dislike_recommendation, h, hle]

/-- Witness for C3 on a three-row store: like at 75 goes to 76 and is
persisted, like at 100 stays 100, dislike at 0 stays 0, dislike at 75
goes to 74, and both routes answer 404 on the empty store. -/
theorem C3_like_dislike_witness :
    (like_recommendation none trioStore 1
      = Except.ok
          { store := storeUpdate trioStore
              { sampleRec with rec_success := sampleRec.rec_success + 1 },
            status := 200,
            body := RespBody.record
              ({ sampleRec with rec_success := sampleRec.rec_success + 1 }).serialize,
            location := none }
      ∧ Recommendation.find
          (storeUpdate trioStore
            { sampleRec with rec_success := sampleRec.rec_success + 1 }) 1
          = some { sampleRec with rec_success := sampleRec.rec_success + 1 })
    ∧ like_recommendation none trioStore 3
      = Except.ok { store := trioStore, status := 200,
                    body := RespBody.record sampleRecHigh.serialize,
                    location := none }
    ∧ (dislike_recommendation none trioStore 1
      = Except.ok
          { store := storeUpdate trioStore
              { sampleRec with rec_success := sampleRec.rec_success - 1 },
            status := 200,
            body := RespBody.record
              ({ sampleRec with rec_success := sampleRec.rec_success - 1 }).serialize,
            location := none }
      ∧ Recommendation.find
          (storeUpdate trioStore
            { sampleRec with rec_success := sampleRec.rec_success - 1 }) 1
          = some { sampleRec with rec_success := sampleRec.rec_success - 1 })
    ∧ dislike_recommendation none trioStore 2
      = Except.ok { store := trioStore, status := 200,
                    body := RespBody.record sampleRecLow.serialize,
                    location := none }
    ∧ like_recommendation none [] 9
      = Except.ok { store := [], status := 404,
                    body := RespBody.err (notFoundMsg 9), location := none }
    ∧ dislike_recommendation none [] 9
      = Except.ok { store := [], status := 404,
                    body := RespBody.err (notFoundMsg 9), location := none } :=
  ⟨((C3_like_dislike trioStore 1).2 sampleRec rfl).1 (by decide),
   ((C3_like_dislike trioStore 3).2 sampleRecHigh rfl).2.1 (by decide),
   ((C3_like_dislike trioStore 1).2 sampleRec rfl).2.2.1 (by decide),
   ((C3_like_dislike trioStore 2).2 sampleRecLow rfl).2.2.2 (by decide),
   ((C3_like_dislike [] 9).1 rfl).1,
   ((C3_like_dislike [] 9).1 rfl).2⟩

/-- C4: PUT /recommendations/{id} with a JSON content type merges
exactly the fields present in the body onto the existing record, leaves
the absent fields and the id unchanged, persists the merge, and answers
200 with the serialized record; it answers 404 when the id is absent and
400 when the body is absent or the empty dict. -/
theorem C4_partial_update (s : Store) (i : Nat) (b : Body) :
    (Recommendation.find s i = none → ∀ d : Option Body,
      update_recommendations none (some "application/json") s i d
        = Except.ok { store := s, status := 404,
                      body := RespBody.err (notFoundMsgUpdate i),
                      location := none })
    ∧ (∀ r, Recommendation.find s i = some r →
        update_recommendations none (some "application/json") s i none
          = Except.ok { store := s, status := 400,
                        body := RespBody.err "No data provided for update.",
                        location := none }
        ∧ (b.isEmptyDict = true →
            update_recommendations none (some "application/json") s i (some b)
              = Except.ok { store := s, status := 400,
                            body := RespBody.err "No data provided for update.",
                            location := none })
        ∧ (b.isEmptyDict = false →
            update_recommendations none (some "application/json") s i (some b)
              = Except.ok { store := storeUpdate s (applyBody r b),
                            status := 200,
                            body := RespBody.record (applyBody r b).serialize,
                            location := none }
            ∧ Recommendation.find (storeUpdate s (applyBody r b)) i
                = some (applyBody r b)
            ∧ applyBody r b =
                { id := r.id,
                  customer_id := Option.getD b.customer_id r.customer_id,
                  product_id := Option.getD b.product_id r.product_id,
                  product_name := Option.getD b.product_name r.product_name,
                  recommend_product_id :=
                    Option.getD b.recommend_product_id r.recommend_product_id,
                  recommendation_name :=
                    Option.getD b.recommendation_name r.recommendation_name,
                  recommend_type :=
                    Option.getD b.recommend_type r.recommend_type,
                  rec_success := Option.getD b.rec_success r.rec_success })) := by
  have hct : check_content_type (some "application/json") "application/json"
      = none := rfl
  constructor
  · intro h d
    simp [update_recommendations, hct, h]
  · intro r h
    have hid := find_id_of_some s i r h
    have hsome : (Recommendation.find s i).isSome = true := by simp [h]
    refine ⟨by simp [update_recommendations, hct, h], ?_, ?_⟩
    · intro hempty
      simp [update_recommendations, hct, h, hempty]
    · intro hfull
      have hid2 : (applyBody r b).id = i := by
        rw [applyBody_eq]
        exact hid
      exact ⟨by simp [update_recommendations, hct, h, hfull,
                      Recommendation.update],
             find_storeUpdate s i _ hid2 hsome,
             applyBody_eq r b⟩

/-- Witness for C4: a two-key body overwrites exactly those two fields
of the singleton store's record; the empty and absent bodies answer 400,
and an absent id answers 404. -/
theorem C4_partial_update_witness :
    update_recommendations none (some "application/json") [sampleRec] 1
        (some partialBody)
      = Except.ok { store := storeUpdate [sampleRec]
                      (applyBody sampleRec partialBody),
                    status := 200,
                    body := RespBody.record
                      (applyBody sampleRec partialBody).serialize,
                    location := none }
    ∧ Recommendation.find
        (storeUpdate [sampleRec] (applyBody sampleRec partialBody)) 1
        = some (applyBody sampleRec partialBody)
    ∧ applyBody sampleRec partialBody
      = { id := 1, customer_id := 9, product_id := 101,
          product_name := "laptop", recommend_product_id := 301,
          recommendation_name := "mouse", recommend_type := "Down-Sell",
          rec_success := 42 }
    ∧ update_recommendations none (some "application/json") [sampleRec] 1 none
      = Except.ok { store := [sampleRec], status := 400,
                    body := RespBody.err "No data provided for update.",
                    location := none }
    ∧ update_recommendations none (some "application/json") [sampleRec] 1
        (some emptyBody)
      = Except.ok { store := [sampleRec], status := 400,
                    body := RespBody.err "No data provided for update.",
                    location := none }
    ∧ update_recommendations none (some "application/json") [sampleRec] 7
        (some partialBody)
      = Except.ok { store := [sampleRec], status := 404,
                    body := RespBody.err (notFoundMsgUpdate 7),
                    location := none } :=
  ⟨(((C4_partial_update [sampleRec] 1 partialBody).2 sampleRec rfl).2.2 rfl).1,
   (((C4_partial_update [sampleRec] 1 partialBody).2 sampleRec rfl).2.2 rfl).2.1,
   (((C4_partial_update [sampleRec] 1 partialBody).2 sampleRec rfl).2.2 rfl).2.2,
   ((C4_partial_update [sampleRec] 1 partialBody).2 sampleRec rfl).1,
   ((C4_partial_update [sampleRec] 1 emptyBody).2 sampleRec rfl).2.1 rfl,
   (C4_partial_update [sampleRec] 7 partialBody).1 rfl (some partialBody)⟩


theorem buildQuery_none_params (mn mx : Option String) :
    buildQuery none none none none none none mn mx
      = addRangeFilter mn mx (fun _ => true) := rfl

theorem addRangeFilter_some_def (mn mx : String) (q : Recommendation → Bool) :
    addRangeFilter (some mn) (some mx) q
      = (if mn == "" || mx == "" then Except.ok q
        else if !(pyIsDigit mn) || !(pyIsDigit mx) then
          Except.error (400, RespBody.err "Invalid range :()")
        else if pyInt mn > pyInt mx then
          Except.error (400, RespBody.err
            "rec_success_min cannot be greater than rec_success_max")
        else
          Except.ok (fun r => q r
            && Int.ofNat (pyInt mn) ≤ r.rec_success
            && r.rec_success ≤ Int.ofNat (pyInt mx))) := rfl

theorem addRangeFilter_gt (mn mx : String) (q : Recommendation → Bool)
    (hmn : pyIsDigit mn = true) (hmx : pyIsDigit mx = true)
    (hgt : pyInt mn > pyInt mx) :
    addRangeFilter (some mn) (some mx) q
      = Except.error (400, RespBody.err
          "rec_success_min cannot be greater than rec_success_max") := by
  have hemn := pyIsDigit_ne_empty mn hmn
  have hemx := pyIsDigit_ne_empty mx hmx
  rw [addRangeFilter_some_def, if_neg (by simp [hemn, hemx]),
      if_neg (by simp [hmn, hmx]), if_pos hgt]

theorem addRangeFilter_ok (mn mx : String) (q : Recommendation → Bool)
    (hmn : pyIsDigit mn = true) (hmx : pyIsDigit mx = true)
    (hle : ¬ pyInt mn > pyInt mx) :
    addRangeFilter (some mn) (some mx) q
      = Except.ok (fun r => q r
          && Int.ofNat (pyInt mn) ≤ r.rec_success
          && r.rec_success ≤ Int.ofNat (pyInt mx)) := by
  have hemn := pyIsDigit_ne_empty mn hmn
  have hemx := pyIsDigit_ne_empty mx hmx
  rw [addRangeFilter_some_def, if_neg (by simp [hemn, hemx]),
      if_neg (by simp [hmn, hmx]), if_neg hle]

/-- C6: a GET with both success-range bounds valid digit strings and
min greater than max answers 400 with exactly the message
"rec_success_min cannot be greater than rec_success_max"; with min not
exceeding max it keeps exactly the records whose `rec_success` lies
between the two bounds inclusive. -/
theorem C6_success_range (s : Store) (mn mx : String)
    (hmn : pyIsDigit mn = true) (hmx : pyIsDigit mx = true) :
    (pyInt mn > pyInt mx →
      list_recommendations s none none none none none none (some mn) (some mx)
        = (400, RespBody.err
            "rec_success_min cannot be greater than rec_success_max"))
    ∧ (¬ pyInt mn > pyInt mx →
      list_recommendations s none none none none none none (some mn) (some mx)
        = (200, RespBody.records (List.map Recommendation.serialize
            (List.filter (fun r =>
              decide (Int.ofNat (pyInt mn) ≤ r.rec_success)
                && decide (r.rec_success ≤ Int.ofNat (pyInt mx))) s)))) := by
  constructor
  · intro hgt
    unfold list_recommendations
    rw [buildQuery_none_params, addRangeFilter_gt mn mx _ hmn hmx hgt]
  · intro hle
    unfold list_recommendations
    rw [buildQuery_none_params, addRangeFilter_ok mn mx _ hmn hmx hle]
    have hfe : List.filter (fun r =>
          (fun (_ : Recommendation) => true) r
            && decide (Int.ofNat (pyInt mn) ≤ r.rec_success)
            && decide (r.rec_success ≤ Int.ofNat (pyInt mx))) s
        = List.filter (fun r =>
            decide (Int.ofNat (pyInt mn) ≤ r.rec_success)
              && decide (r.rec_success ≤ Int.ofNat (pyInt mx))) s :=
      List.filter_congr (fun x _ => by simp)
    show ((200 : Nat), RespBody.records (List.map Recommendation.serialize
        (List.filter (fun r =>
          (fun (_ : Recommendation) => true) r
            && decide (Int.ofNat (pyInt mn) ≤ r.rec_success)
            && decide (r.rec_success ≤ Int.ofNat (pyInt mx))) s))) = _
    rw [hfe]

/-- Witness for C6 on the three-row store: 90..10 answers 400; 10..90
keeps exactly the record with `rec_success` 75, dropping 0 and 100. -/
theorem C6_success_range_witness :
    list_recommendations trioStore none none none none none none
        (some "90") (some "10")
      = (400, RespBody.err
          "rec_success_min cannot be greater than rec_success_max")
    ∧ list_recommendations trioStore none none none none none none
        (some "10") (some "90")
      = (200, RespBody.records [Recommendation.serialize sampleRec]) :=
  ⟨(C6_success_range trioStore "90" "10" rfl rfl).1 (by decide),
   (C6_success_range trioStore "10" "90" rfl rfl).2 (by decide)⟩

theorem addTypeFilter_some_def (t : String) (q : Recommendation → Bool) :
    addTypeFilter (some t) q
      = (if t == "" then Except.ok q
        else if List.contains valid_recommend_types t then
          Except.ok (fun r => q r && r.recommend_type == t)
        else Except.error (400, RespBody.err
          ("Invalid recommend_type. Must be one of "
            ++ pyListRepr valid_recommend_types))) := rfl

theorem addTypeFilter_invalid (t : String) (q : Recommendation → Bool)
    (hne : (t == "") = false)
    (hnotin : List.contains valid_recommend_types t = false) :
    addTypeFilter (some t) q
      = Except.error (400, RespBody.err
          ("Invalid recommend_type. Must be one of "
            ++ pyListRepr valid_recommend_types)) := by
  rw [addTypeFilter_some_def, if_neg (by simp [hne]),
      if_neg (by simp only [hnotin]; decide)]

/-- C7: a GET whose `recommend_type` is non-empty and not one of
"Up-Sell", "Down-Sell", "Cross-Sell" answers 400 with a message
enumerating exactly those three values in declared order. -/
theorem C7_invalid_recommend_type (s : Store) (t : String)
    (hne : (t == "") = false)
    (hnotin : List.contains valid_recommend_types t = false) :
    list_recommendations s none none (some t) none none none none none
      = (400, RespBody.err ("Invalid recommend_type. Must be one of "
          ++ pyListRepr valid_recommend_types))
    ∧ pyListRepr valid_recommend_types
      = "[" ++ pyQuote ++ "Up-Sell" ++ pyQuote ++ ", " ++ pyQuote
          ++ "Down-Sell" ++ pyQuote ++ ", " ++ pyQuote ++ "Cross-Sell"
          ++ pyQuote ++ "]"
    ∧ valid_recommend_types = ["Up-Sell", "Down-Sell", "Cross-Sell"] := by
  refine ⟨?_, by decide, rfl⟩
  have haux : ∀ q : Recommendation → Bool,
      addTypeFilter (some t) q
        = Except.error (400, RespBody.err
            ("Invalid recommend_type. Must be one of "
              ++ pyListRepr valid_recommend_types)) :=
    fun q => addTypeFilter_invalid t q hne hnotin
  unfold list_recommendations buildQuery
  simp only [addIntFilter, haux]

/-- Witness for C7 at the parameter value "invalid-value". -/
theorem C7_invalid_recommend_type_witness :
    list_recommendations trioStore none none (some "invalid-value") none none
        none none none
      = (400, RespBody.err ("Invalid recommend_type. Must be one of "
          ++ pyListRepr valid_recommend_types))
    ∧ pyListRepr valid_recommend_types
      = "[" ++ pyQuote ++ "Up-Sell" ++ pyQuote ++ ", " ++ pyQuote
          ++ "Down-Sell" ++ pyQuote ++ ", " ++ pyQuote ++ "Cross-Sell"
          ++ pyQuote ++ "]"
    ∧ valid_recommend_types = ["Up-Sell", "Down-Sell", "Cross-Sell"] :=
  C7_invalid_recommend_type trioStore "invalid-value" (by decide) (by decide)

theorem addRangeFilter_skip (mn mx : Option String) (q : Recommendation → Bool)
    (h : truthy mn = false ∨ truthy mx = false) :
    addRangeFilter mn mx q = Except.ok q := by
  cases mn with
  | none => cases mx <;> rfl
  | some a =>
    cases mx with
    | none => rfl
    | some b =>
      rcases h with h | h
      · have ha : (a == "") = true := by simpa [truthy] using h
        rw [addRangeFilter_some_def, if_pos (by simp [ha])]
      · have hb : (b == "") = true := by simpa [truthy] using h
        rw [addRangeFilter_some_def, if_pos (by simp [hb])]

/-- C10: a GET supplying only one of the two success-range bounds (the
other absent or empty) ignores the supplied bound entirely — it is
neither validated nor applied, and the result equals the request with
neither bound. -/
theorem C10_single_bound_ignored (s : Store)
    (p c t rp pn rn mn mx : Option String)
    (h : truthy mn = false ∨ truthy mx = false) :
    list_recommendations s p c t rp pn rn mn mx
      = list_recommendations s p c t rp pn rn none none := by
  have haux : ∀ q : Recommendation → Bool,
      addRangeFilter mn mx q = addRangeFilter none none q := by
    intro q
    rw [addRangeFilter_skip mn mx q h]
    rfl
  unfold list_recommendations buildQuery
  simp only [haux]

/-- Witness for C10: a lone non-integer bound on either side neither
400s nor filters — the result equals the unfiltered request. -/
theorem C10_single_bound_ignored_witness :
    list_recommendations trioStore none none none none none none
        (some "not-a-number") none
      = list_recommendations trioStore none none none none none none none none
    ∧ list_recommendations trioStore none none none none none none
        none (some "99x")
      = list_recommendations trioStore none none none none none none
          none none :=
  ⟨C10_single_bound_ignored trioStore none none none none none none
      (some "not-a-number") none (Or.inr rfl),
   C10_single_bound_ignored trioStore none none none none none none
      none (some "99x") (Or.inl rfl)⟩

/-- C8: the claim quantifies over every POST or PUT request, but the PUT
like/dislike/link routes never consult the Content-Type header — their
handlers (`routes.py`) read no header at all, so the embedding takes no
header argument. A PUT to /recommendations/3/like with any (or no)
Content-Type answers 200, not 415. -/
theorem C8_put_like_no_content_type_counterexample :
    like_recommendation none trioStore 3
      = Except.ok { store := trioStore, status := 200,
                    body := RespBody.record sampleRecHigh.serialize,
                    location := none }
    ∧ (200 : Nat) ≠ 415 :=
  ⟨rfl, by decide⟩
